import Mathlib

/-!
Shallow embedding of `pygptify.py`, a command-line tool that iteratively
rewrites a Python source file via an LLM completion service, validating each
candidate with `ast.parse` and writing it back to disk only when it parses.

Modelling choices:
* The file system is a single-file store: the state `St` carries the current
  on-disk content (`disk`), plus ghost logs of every write performed
  (`writes`), the number of completion-service calls (`calls`), and the prompt
  sent on each call (`prompts`).
* `ast.parse` is an external standard-library parser; it is modelled by an
  abstract function `parse : String → Option String` returning `none` on
  success and `some msg` for a `SyntaxError` whose `str(e)` is `msg`
  (non-SyntaxError exceptions from the parser are out of scope).
* The OpenAI chat API is external; it is modelled by an oracle
  `oracle : Nat → Completion` giving the outcome of the n-th call (0-based):
  either a length-truncated finish or a response content string.
* Exceptions that propagate uncaught out of `main` are modelled by the
  `Except` error component, which carries the state at the raise point so the
  on-disk content at abort time is observable.
* Console printing (`print_iteration_details`, `print_diff`, `print_error`)
  has no effect on the file, the buffers, or the API calls, and is not
  modelled; normal completion of `main` (an `Except.ok` result) corresponds
  to reaching the final `"Formatted <filename>."` print.
-/

namespace PyGPTify

/-- Outcome of one completion-service call: either the service reports a
length-truncated finish (`finish_reason == "length"`), or it returns the
message content. Transport and auth failures are out of scope. -/
inductive Completion
  | truncated
  | ok (content : String)
deriving DecidableEq

/-- Observable state of a run: the on-disk file content, the log of writes,
the number of completion calls made, and the prompt sent on each call. -/
structure St where
  disk : String
  writes : List String
  calls : Nat
  prompts : List String
deriving DecidableEq

/-- Errors that propagate uncaught out of `main`: the initial
`compile_source` SyntaxError, or the `RuntimeError("Too large")` raised by
`call_openai` on a length-truncated finish. -/
inductive RunError
  | initialSyntax (msg : String)
  | tooLarge (msg : String)
deriving DecidableEq

/-- Python `read_file`: reads the target file, i.e. the current disk content. -/
def read_file (st : St) : String := st.disk

/-- Python `write_file`: fully overwrites the target file; the ghost `writes`
log records each write. -/
def write_file (source : String) (st : St) : St :=
  { st with disk := source, writes := st.writes ++ [source] }

/-- Python `compile_source`: `ast.parse(source)`, with the standard-library
parser abstracted as `parse` (`none` = parses, `some msg` = SyntaxError). -/
def compile_source (parse : String → Option String) (source : String) :
    Option String :=
  parse source

/-- The fixed instructional f-string of `create_prompt` (everything up to and
including the trailing newline and four-space indent after the interpolated
source), transcribed verbatim from the source. -/
def promptTemplate (source : String) : String :=
  "\nPlease refactor the python code according to clean code principles:\n" ++
  "\n" ++
  "## Design rules\n" ++
  "1. Keep configurable data at high levels.\n" ++
  "2. Prefer polymorphism to if/else or switch/case.\n" ++
  "3. Separate multi-threading code.\n" ++
  "4. Prevent over-configurability.\n" ++
  "5. Use dependency injection.\n" ++
  "6. Follow Law of Demeter. A class should know only its direct dependencies.\n" ++
  "\n" ++
  "## Understandability tips\n" ++
  "1. Be consistent. If you do something a certain way, do all similar things in the same way.\n" ++
  "2. Use explanatory variables.\n" ++
  "3. Encapsulate boundary conditions. Boundary conditions are hard to keep track of. Put the processing for them in one place.\n" ++
  "4. Prefer dedicated value objects to primitive type.\n" ++
  "5. Avoid logical dependency. Don't write methods which works correctly depending on something else in the same class.\n" ++
  "6. Avoid negative conditionals.\n" ++
  "\n" ++
  "## Names rules\n" ++
  "1. Choose descriptive and unambiguous names.\n" ++
  "2. Make meaningful distinction.\n" ++
  "3. Use pronounceable names.\n" ++
  "4. Use searchable names.\n" ++
  "5. Replace magic numbers with named constants.\n" ++
  "6. Avoid encodings. Don't append prefixes or type information.\n" ++
  "\n" ++
  "## Functions rules\n" ++
  "1. Small.\n" ++
  "2. Do one thing.\n" ++
  "3. Use descriptive names.\n" ++
  "4. Prefer fewer arguments.\n" ++
  "5. Have no side effects.\n" ++
  "6. Don't use flag arguments. Split method into several independent methods that can be called from the client without the flag.\n" ++
  "\n" ++
  "## Comments rules\n" ++
  "1. Always try to explain yourself in code.\n" ++
  "2. Don't be redundant.\n" ++
  "3. Don't add obvious noise.\n" ++
  "4. Don't use closing brace comments.\n" ++
  "5. Don't comment out code. Just remove.\n" ++
  "6. Use as explanation of intent.\n" ++
  "7. Use as clarification of code.\n" ++
  "8. Use as warning of consequences.\n" ++
  "\n" ++
  "## Source code structure\n" ++
  "1. Separate concepts vertically.\n" ++
  "2. Related code should appear vertically dense.\n" ++
  "3. Declare variables close to their usage.\n" ++
  "4. Dependent functions should be close.\n" ++
  "5. Similar functions should be close.\n" ++
  "6. Place functions in the downward direction.\n" ++
  "7. Keep lines short.\n" ++
  "8. Don't use horizontal alignment.\n" ++
  "9. Use white space to associate related things and disassociate weakly related.\n" ++
  "10. Don't break indentation.\n" ++
  "\n" ++
  "## Objects and data structures\n" ++
  "1. Hide internal structure.\n" ++
  "2. Prefer data structures.\n" ++
  "3. Avoid hybrids structures (half object and half data).\n" ++
  "4. Should be small.\n" ++
  "5. Do one thing.\n" ++
  "6. Small number of instance variables.\n" ++
  "7. Base class should know nothing about their derivatives.\n" ++
  "8. Better to have many functions than to pass some code into a function to select a behavior.\n" ++
  "9. Prefer non-static methods to static methods.\n" ++
  "\n" ++
  "## Tests\n" ++
  "1. One assert per test.\n" ++
  "2. Readable.\n" ++
  "3. Fast.\n" ++
  "4. Independent.\n" ++
  "5. Repeatable.\n" ++
  "\n" ++
  "\n" ++
  "Please return just the python code and nothing else.\n" ++
  "Do not change places that have a comment that says \"do not change\".\n" ++
  "\n" ++
  source ++
  "\n    "

/-- The error-hint f-string appended by `create_prompt` when `error` is
truthy, transcribed verbatim from the source. -/
def errorHintBlock (error : String) : String :=
  "\n        The following error was raised when trying to compile a previous recommendation.\n" ++
  "        So use that as a hint to fix the code:\n" ++
  "        " ++ error ++ "\n        "

/-- Python `create_prompt`: the fixed instructional template around the
source, plus the error-hint block when and only when `error` is non-empty
(Python string truthiness of `if error:`). -/
def create_prompt (source error : String) : String :=
  let prompt := promptTemplate source
  if error ≠ "" then prompt ++ errorHintBlock error else prompt

/-- Python `str.isspace` characters stripped by `str.strip()` (ASCII part;
the responses considered here contain no further Unicode whitespace). -/
def isPyWhitespace (c : Char) : Bool :=
  c = ' ' || c = '\t' || c = '\n' || c = '\r' || c = '\x0b' || c = '\x0c'

/-- Python `str.strip()`: remove leading and trailing whitespace. -/
def pyStrip (s : String) : String :=
  ⟨((s.data.dropWhile isPyWhitespace).reverse.dropWhile isPyWhitespace).reverse⟩

/-- Python `extract_code`: strip surrounding whitespace, then remove one
leading and one trailing triple-backtick marker if present. Slicing
`script[3:]` and `script[:-3]` is code-point based, matching `List.drop` and
`List.take` on the character list. -/
def extract_code (response : String) : String :=
  let script := (pyStrip response).data
  let BACKTICKS := "```".data
  let script1 :=
    if BACKTICKS.isPrefixOf script then script.drop BACKTICKS.length else script
  let script2 :=
    if BACKTICKS.isSuffixOf script1 then
      script1.take (script1.length - BACKTICKS.length)
    else script1
  ⟨script2⟩

/-- Python `call_openai`: performs one completion call (recorded in the ghost
logs), and raises `RuntimeError("Too large")` when the service reports a
length-truncated finish; otherwise returns the message content. -/
def call_openai (oracle : Nat → Completion) (prompt : String) (st : St) :
    Except (RunError × St) (String × St) :=
  let st' := { st with calls := st.calls + 1, prompts := st.prompts ++ [prompt] }
  match oracle st.calls with
  | .truncated => .error (.tooLarge "Too large", st')
  | .ok content => .ok (content, st')

/-- Python `format_source`: build the prompt, call the service, extract the
candidate, and return it together with an unconditionally cleared error. -/
def format_source (oracle : Nat → Completion) (source error : String)
    (st : St) : Except (RunError × St) (String × String × St) :=
  let prompt := create_prompt source error
  match call_openai oracle prompt st with
  | .error e => .error e
  | .ok (response, st') => .ok (extract_code response, "", st')

/-- The `for iteration in range(iterations)` loop body of Python `main`,
recursing on the number of remaining rounds. On a candidate that parses, the
Source Buffer is replaced and written to disk; on a `SyntaxError`, the buffer
is kept and the error message is captured for the next round. The loop
returns the final Source Buffer, the final error value, and the state. -/
def mainLoop (parse : String → Option String) (oracle : Nat → Completion) :
    Nat → String → String → St → Except (RunError × St) (String × String × St)
  | 0, source, error, st => .ok (source, error, st)
  | Nat.succ n, source, error, st =>
    match format_source oracle source error st with
    | .error e => .error e
    | .ok (new_source, error', st') =>
      match compile_source parse new_source with
      | none => mainLoop parse oracle n new_source error' (write_file new_source st')
      | some msg => mainLoop parse oracle n source msg st'

/-- Python `main`: read the file, validate it (a SyntaxError here propagates
uncaught, before any completion call), then run the iteration loop.
`range(iterations)` runs `max(iterations, 0)` rounds, i.e. `Int.toNat`. -/
def main (parse : String → Option String) (oracle : Nat → Completion)
    (fileContent : String) (iterations : Int := 1) :
    Except (RunError × St) (String × String × St) :=
  let st0 : St := { disk := fileContent, writes := [], calls := 0, prompts := [] }
  let source := read_file st0
  match compile_source parse source with
  | some msg => .error (.initialSyntax msg, st0)
  | none => mainLoop parse oracle iterations.toNat source "" st0

/-- The state component of a run's outcome, for normal and abnormal exits. -/
def resultSt : Except (RunError × St) (String × String × St) → St
  | .ok (_, _, st) => st
  | .error (_, st) => st

/-! ### Step lemmas: one unfolding of the loop per completion outcome -/

/-- A length-truncated completion aborts the loop with the uncaught
`RuntimeError`; only the call/prompt logs advance. -/
theorem mainLoop_succ_trunc (parse : String → Option String)
    (oracle : Nat → Completion) (n : Nat) (s e : String) (st : St)
    (ho : oracle st.calls = .truncated) :
    mainLoop parse oracle (n + 1) s e st =
      .error (.tooLarge "Too large",
        { st with calls := st.calls + 1,
                  prompts := st.prompts ++ [create_prompt s e] }) := by
  simp [mainLoop, format_source, call_openai, ho]

/-- A completion whose extracted candidate parses replaces the Source Buffer,
writes it to disk, and clears the error for the next round. -/
theorem mainLoop_succ_valid (parse : String → Option String)
    (oracle : Nat → Completion) (n : Nat) (s e : String) (st : St)
    (c : String) (ho : oracle st.calls = .ok c)
    (hp : parse (extract_code c) = none) :
    mainLoop parse oracle (n + 1) s e st =
      mainLoop parse oracle n (extract_code c) ""
        (write_file (extract_code c)
          { st with calls := st.calls + 1,
                    prompts := st.prompts ++ [create_prompt s e] }) := by
  simp [mainLoop, format_source, call_openai, compile_source, ho, hp]

/-- A completion whose extracted candidate fails to parse is discarded: the
Source Buffer and the disk are untouched and the new error message alone is
carried into the next round. -/
theorem mainLoop_succ_invalid (parse : String → Option String)
    (oracle : Nat → Completion) (n : Nat) (s e : String) (st : St)
    (c msg : String) (ho : oracle st.calls = .ok c)
    (hp : parse (extract_code c) = some msg) :
    mainLoop parse oracle (n + 1) s e st =
      mainLoop parse oracle n s msg
        { st with calls := st.calls + 1,
                  prompts := st.prompts ++ [create_prompt s e] } := by
  simp [mainLoop, format_source, call_openai, compile_source, ho, hp]

/-- Unfolding of `main` when the initial source fails to parse. -/
theorem main_initialSyntax (parse : String → Option String)
    (oracle : Nat → Completion) (content : String) (its : Int) (msg : String)
    (h : parse content = some msg) :
    main parse oracle content its =
      .error (.initialSyntax msg, ⟨content, [], 0, []⟩) := by
  simp [main, read_file, compile_source, h]

/-- Unfolding of `main` when the initial source parses. -/
theorem main_valid_start (parse : String → Option String)
    (oracle : Nat → Completion) (content : String) (its : Int)
    (h : parse content = none) :
    main parse oracle content its =
      mainLoop parse oracle its.toNat content "" ⟨content, [], 0, []⟩ := by
  simp [main, read_file, compile_source, h]

/-! ### Loop invariants -/

/-- Every string ever written to disk by the loop passed validation. -/
theorem mainLoop_writes_validated (parse : String → Option String)
    (oracle : Nat → Completion) (n : Nat) :
    ∀ (s e : String) (st : St),
      (∀ w ∈ st.writes, parse w = none) →
      ∀ w ∈ (resultSt (mainLoop parse oracle n s e st)).writes, parse w = none := by
  induction n with
  | zero => intro s e st hst w hw; exact hst w hw
  | succ n ih =>
    intro s e st hst w hw
    cases ho : oracle st.calls with
    | truncated =>
      rw [mainLoop_succ_trunc parse oracle n s e st ho] at hw
      exact hst w hw
    | ok c =>
      cases hp : parse (extract_code c) with
      | none =>
        rw [mainLoop_succ_valid parse oracle n s e st c ho hp] at hw
        refine ih (extract_code c) "" _ ?_ w hw
        intro w' hw'
        simp only [write_file, List.mem_append, List.mem_singleton] at hw'
        rcases hw' with h | h
        · exact hst w' h
        · rw [h]; exact hp
      | some msg =>
        rw [mainLoop_succ_invalid parse oracle n s e st c msg ho hp] at hw
        refine ih s msg _ ?_ w hw
        intro w' hw'
        exact hst w' hw'

/-- The disk always holds the most recent write, or the initial content when
nothing has been written yet. -/
theorem mainLoop_disk_last (parse : String → Option String)
    (oracle : Nat → Completion) (init : String) (n : Nat) :
    ∀ (s e : String) (st : St),
      st.disk = (st.writes.getLast?).getD init →
      (resultSt (mainLoop parse oracle n s e st)).disk =
        ((resultSt (mainLoop parse oracle n s e st)).writes.getLast?).getD init := by
  induction n with
  | zero => intro s e st hst; exact hst
  | succ n ih =>
    intro s e st hst
    cases ho : oracle st.calls with
    | truncated =>
      rw [mainLoop_succ_trunc parse oracle n s e st ho]
      exact hst
    | ok c =>
      cases hp : parse (extract_code c) with
      | none =>
        rw [mainLoop_succ_valid parse oracle n s e st c ho hp]
        refine ih (extract_code c) "" _ ?_
        simp [write_file]
      | some msg =>
        rw [mainLoop_succ_invalid parse oracle n s e st c msg ho hp]
        exact ih s msg _ hst

/-- A normally completed loop of `n` rounds made exactly `n` completion
calls: no round is skipped, also after a success. -/
theorem mainLoop_calls (parse : String → Option String)
    (oracle : Nat → Completion) (n : Nat) :
    ∀ (s e : String) (st : St) (r : String × String × St),
      mainLoop parse oracle n s e st = .ok r → r.2.2.calls = st.calls + n := by
  induction n with
  | zero =>
    intro s e st r h
    simp only [mainLoop, Except.ok.injEq] at h
    rw [← h]
    simp
  | succ n ih =>
    intro s e st r h
    cases ho : oracle st.calls with
    | truncated =>
      rw [mainLoop_succ_trunc parse oracle n s e st ho] at h
      exact absurd h (by simp)
    | ok c =>
      cases hp : parse (extract_code c) with
      | none =>
        rw [mainLoop_succ_valid parse oracle n s e st c ho hp] at h
        have := ih _ _ _ _ h
        simp only [write_file] at this
        omega
      | some msg =>
        rw [mainLoop_succ_invalid parse oracle n s e st c msg ho hp] at h
        have := ih _ _ _ _ h
        simp only [] at this
        omega

/-- Running `a + b` rounds is running `a` rounds and then `b` more from the
resulting buffer, error and state. -/
theorem mainLoop_add (parse : String → Option String)
    (oracle : Nat → Completion) (a b : Nat) :
    ∀ (s e : String) (st : St),
      mainLoop parse oracle (a + b) s e st =
        (mainLoop parse oracle a s e st).bind
          (fun r => mainLoop parse oracle b r.1 r.2.1 r.2.2) := by
  induction a with
  | zero =>
    intro s e st
    simp only [Nat.zero_add]
    rfl
  | succ a ih =>
    intro s e st
    have hn : a + 1 + b = (a + b) + 1 := by omega
    rw [hn]
    cases ho : oracle st.calls with
    | truncated =>
      rw [mainLoop_succ_trunc parse oracle (a + b) s e st ho,
        mainLoop_succ_trunc parse oracle a s e st ho]
      rfl
    | ok c =>
      cases hp : parse (extract_code c) with
      | none =>
        rw [mainLoop_succ_valid parse oracle (a + b) s e st c ho hp,
          mainLoop_succ_valid parse oracle a s e st c ho hp]
        exact ih _ _ _
      | some msg =>
        rw [mainLoop_succ_invalid parse oracle (a + b) s e st c msg ho hp,
          mainLoop_succ_invalid parse oracle a s e st c msg ho hp]
        exact ih _ _ _

/-! ### Extraction and prompt lemmas -/

/-- Stripping is the identity on a string whose first and last characters are
not whitespace. -/
theorem pyStrip_of_solid_ends (a b : Char) (l : List Char)
    (ha : isPyWhitespace a = false) (hb : isPyWhitespace b = false) :
    pyStrip ⟨a :: (l ++ [b])⟩ = ⟨a :: (l ++ [b])⟩ := by
  unfold pyStrip
  have h1 : List.dropWhile isPyWhitespace (a :: (l ++ [b])) = a :: (l ++ [b]) :=
    List.dropWhile_cons_of_neg (by simp [ha])
  rw [h1]
  have h2 : (a :: (l ++ [b])).reverse = b :: (l.reverse ++ [a]) := by simp
  rw [h2]
  have h3 : List.dropWhile isPyWhitespace (b :: (l.reverse ++ [a])) =
      b :: (l.reverse ++ [a]) :=
    List.dropWhile_cons_of_neg (by simp [hb])
  rw [h3, ← h2, List.reverse_reverse]

/-- Character data of a fenced response. -/
theorem data_fenced (S : String) :
    ("```" ++ S ++ "```").data =
      ("```" : String).data ++ (S.data ++ ("```" : String).data) := by
  simp [String.data_append]

/-- Stripping is the identity on a fenced response: backticks are not
whitespace. -/
theorem pyStrip_fenced (S : String) :
    pyStrip ("```" ++ S ++ "```") = "```" ++ S ++ "```" := by
  have he : ("```" ++ S ++ "```" : String) =
      ⟨'`' :: (('`' :: '`' :: S.data ++ ['`', '`']) ++ ['`'])⟩ := by
    apply String.ext
    rw [data_fenced]
    simp
  rw [he]
  exact pyStrip_of_solid_ends '`' '`' ('`' :: '`' :: S.data ++ ['`', '`'])
    (by decide) (by decide)

/-- Extraction inverts direct fence wrapping: for any `S`, extracting
three backticks ++ `S` ++ three backticks gives back exactly `S`. -/
theorem extract_code_fenced (S : String) :
    extract_code ("```" ++ S ++ "```") = S := by
  unfold extract_code
  rw [pyStrip_fenced, data_fenced]
  have hpre : List.isPrefixOf ("```" : String).data
      (("```" : String).data ++ (S.data ++ ("```" : String).data)) = true := by
    rw [List.isPrefixOf_iff_prefix]
    exact List.prefix_append _ _
  have hsuf : List.isSuffixOf ("```" : String).data
      (S.data ++ ("```" : String).data) = true := by
    rw [List.isSuffixOf_iff_suffix]
    exact List.suffix_append _ _
  simp only [hpre, if_true, List.drop_left, hsuf]
  have hlen : (S.data ++ ("```" : String).data).length -
      ("```" : String).data.length = S.data.length := by
    simp
  rw [hlen, List.take_left]

/-- With a non-empty error, the prompt is the fixed template followed by the
error-hint block. -/
theorem create_prompt_of_ne (s e : String) (he : e ≠ "") :
    create_prompt s e = promptTemplate s ++ errorHintBlock e := by
  simp [create_prompt, he]

/-- With an empty error, the prompt is exactly the fixed template: no
error-hint block is appended. -/
theorem create_prompt_of_empty (s : String) :
    create_prompt s "" = promptTemplate s := by
  simp [create_prompt]

/-- The literal error text occurs verbatim inside the prompt whenever the
error is non-empty. -/
theorem errorHint_infix (s e : String) (he : e ≠ "") :
    List.IsInfix e.data (create_prompt s e).data := by
  rw [create_prompt_of_ne s e he]
  refine ⟨(promptTemplate s).data ++
    (("\n        The following error was raised when trying to compile a previous recommendation.\n" ++
      "        So use that as a hint to fix the code:\n" ++
      "        " : String)).data,
    ("\n        " : String).data, ?_⟩
  simp [errorHintBlock, String.data_append, List.append_assoc]

/-! ### Concrete test doubles used by the witnesses -/

/-- A concrete validator: only the strings `bad1` and `bad2` fail to parse,
with error messages `E1` and `E2`. -/
def parseStub : String → Option String :=
  fun s => if s = "bad1" then some "E1" else if s = "bad2" then some "E2" else none

/-- An oracle whose replies all extract to the valid candidate `good`. -/
def oracleOk : Nat → Completion := fun _ => .ok "good"

/-- An oracle whose first reply extracts to an invalid candidate and whose
later replies extract to valid ones. -/
def oracleStub : Nat → Completion :=
  fun n => if n = 0 then .ok "bad1" else .ok "good"

/-- An oracle with two invalid candidates and then valid ones. -/
def oracleTwoBad : Nat → Completion :=
  fun n => if n = 0 then .ok "bad1" else if n = 1 then .ok "bad2" else .ok "good"

/-- An oracle reporting a length-truncated finish on every call. -/
def oracleTrunc : Nat → Completion := fun _ => .truncated

/-- An oracle echoing the fixed source `x = 1` wrapped in fence markers. -/
def oracleFenced : Nat → Completion := fun _ => .ok ("```" ++ "x = 1" ++ "```")

/-! ### Claims -/

/-- C1: for every run, the on-disk target file is only ever overwritten with
text that has passed syntax validation (every logged write parses); and when
a candidate fails validation it is discarded — the loop continues with the
prior Source Buffer unchanged and the failure message captured for the next
prompt, with no write and no disk change. -/
theorem claim1_only_validated_text_written :
    (∀ (parse : String → Option String) (oracle : Nat → Completion)
        (content : String) (its : Int) (w : String),
        w ∈ (resultSt (main parse oracle content its)).writes → parse w = none) ∧
    (∀ (parse : String → Option String) (oracle : Nat → Completion)
        (n : Nat) (s e : String) (st : St) (c msg : String),
        oracle st.calls = .ok c → parse (extract_code c) = some msg →
        mainLoop parse oracle (n + 1) s e st =
          mainLoop parse oracle n s msg
            { st with calls := st.calls + 1,
                      prompts := st.prompts ++ [create_prompt s e] }) := by
  constructor
  · intro parse oracle content its w hw
    cases hpc : parse content with
    | some msg =>
      rw [main_initialSyntax parse oracle content its msg hpc] at hw
      simp [resultSt] at hw
    | none =>
      rw [main_valid_start parse oracle content its hpc] at hw
      exact mainLoop_writes_validated parse oracle its.toNat content "" _ (by simp) w hw
  · intro parse oracle n s e st c msg ho hp
    exact mainLoop_succ_invalid parse oracle n s e st c msg ho hp

/-- Witness for C1: a run writing the validated candidate `good`, and one
failing round that discards the candidate and carries the error `E1`. -/
theorem claim1_witness :
    parseStub "good" = none ∧
    mainLoop parseStub oracleStub (0 + 1) "start" "" ⟨"start", [], 0, []⟩ =
      mainLoop parseStub oracleStub 0 "start" "E1"
        ⟨"start", [], 1, [create_prompt "start" ""]⟩ :=
  ⟨claim1_only_validated_text_written.1 parseStub oracleOk "start" 1 "good" (by decide),
   claim1_only_validated_text_written.2 parseStub oracleStub 0 "start" ""
     ⟨"start", [], 0, []⟩ "bad1" "E1" (by decide) (by decide)⟩

/-- C2: a normally completing run makes exactly one completion call per
requested round (no early exit after a success); the disk always holds the
last successful candidate (the last write), or the initial content when no
round succeeded yet; and a run of `a + b` rounds is a run of `a` rounds
continued by `b` more, so the invariant describes every prefix of rounds. -/
theorem claim2_persistence_granularity :
    (∀ (parse : String → Option String) (oracle : Nat → Completion)
        (content : String) (its : Int) (r : String × String × St),
        main parse oracle content its = .ok r → r.2.2.calls = its.toNat) ∧
    (∀ (parse : String → Option String) (oracle : Nat → Completion)
        (content : String) (its : Int),
        (resultSt (main parse oracle content its)).disk =
          ((resultSt (main parse oracle content its)).writes.getLast?).getD content) ∧
    (∀ (parse : String → Option String) (oracle : Nat → Completion)
        (content : String) (a b : Nat),
        main parse oracle content (↑(a + b) : Int) =
          (main parse oracle content (↑a : Int)).bind
            (fun r => mainLoop parse oracle b r.1 r.2.1 r.2.2)) := by
  refine ⟨?_, ?_, ?_⟩
  · intro parse oracle content its r h
    cases hpc : parse content with
    | some msg =>
      rw [main_initialSyntax parse oracle content its msg hpc] at h
      exact absurd h (by simp)
    | none =>
      rw [main_valid_start parse oracle content its hpc] at h
      have := mainLoop_calls parse oracle its.toNat content "" ⟨content, [], 0, []⟩ r h
      simpa using this
  · intro parse oracle content its
    cases hpc : parse content with
    | some msg =>
      rw [main_initialSyntax parse oracle content its msg hpc]
      rfl
    | none =>
      rw [main_valid_start parse oracle content its hpc]
      exact mainLoop_disk_last parse oracle content its.toNat content "" _ rfl
  · intro parse oracle content a b
    cases hpc : parse content with
    | some msg =>
      rw [main_initialSyntax parse oracle content _ msg hpc,
          main_initialSyntax parse oracle content _ msg hpc]
      rfl
    | none =>
      rw [main_valid_start parse oracle content _ hpc,
          main_valid_start parse oracle content _ hpc]
      simp only [Int.toNat_natCast]
      exact mainLoop_add parse oracle a b content "" _

/-- Witness for C2: a two-round all-successful run makes exactly two calls. -/
theorem claim2_witness :
    (("good", "",
        (⟨"good", ["good", "good"], 2,
          [create_prompt "start" "", create_prompt "good" ""]⟩ : St)) :
      String × String × St).2.2.calls = (2 : Int).toNat :=
  claim2_persistence_granularity.1 parseStub oracleOk "start" 2 _ rfl

/-- C3: an initial source that fails syntax validation aborts the run with
the uncaught SyntaxError before any completion call: zero calls, no write. -/
theorem claim3_initial_syntax_aborts :
    ∀ (parse : String → Option String) (oracle : Nat → Completion)
      (content : String) (its : Int) (msg : String),
      parse content = some msg →
      main parse oracle content its =
        .error (.initialSyntax msg, ⟨content, [], 0, []⟩) ∧
      (resultSt (main parse oracle content its)).calls = 0 ∧
      (resultSt (main parse oracle content its)).writes = [] := by
  intro parse oracle content its msg h
  have hm := main_initialSyntax parse oracle content its msg h
  refine ⟨hm, ?_, ?_⟩ <;> rw [hm] <;> rfl

/-- Witness for C3: the invalid initial source `bad1` aborts a five-round
run with zero calls and zero writes. -/
theorem claim3_witness :
    main parseStub oracleOk "bad1" 5 =
      .error (.initialSyntax "E1", ⟨"bad1", [], 0, []⟩) ∧
    (resultSt (main parseStub oracleOk "bad1" 5)).calls = 0 ∧
    (resultSt (main parseStub oracleOk "bad1" 5)).writes = [] :=
  claim3_initial_syntax_aborts parseStub oracleOk "bad1" 5 "E1" (by decide)

/-- C4 counterexample: extraction on three backticks, newline, `X`, newline,
three backticks does not yield `X` followed by a newline — whitespace
stripping happens before fence removal, so the newline after the opening
fence survives. -/
theorem claim4_counterexample :
    ¬ (extract_code "```\nX\n```" = "X\n") := by decide

/-- C4 (amended): extraction on three backticks, newline, `X`, newline,
three backticks yields newline, `X`, newline (the surrounding strip runs
before fence removal, so the newline following the opening marker and the
one preceding the closing marker are both preserved); extraction on a
response `X` with no fence markers yields `X` unchanged. -/
theorem claim4_fence_stripping :
    extract_code "```\nX\n```" = "\nX\n" ∧ extract_code "X" = "X" := by decide

/-- C5: for every syntactically valid source `S`, if the completion service
returns `S` wrapped directly in fence markers, the extractor yields `S`
byte-for-byte, and after one iteration the run succeeds with the file
rewritten with content identical to `S`. -/
theorem claim5_round_trip :
    ∀ (parse : String → Option String) (oracle : Nat → Completion) (S : String),
      parse S = none → oracle 0 = .ok ("```" ++ S ++ "```") →
      extract_code ("```" ++ S ++ "```") = S ∧
      main parse oracle S 1 =
        .ok (S, "", ⟨S, [S], 1, [create_prompt S ""]⟩) := by
  intro parse oracle S hp ho
  refine ⟨extract_code_fenced S, ?_⟩
  rw [main_valid_start parse oracle S 1 hp]
  have hcand : parse (extract_code ("```" ++ S ++ "```")) = none := by
    rw [extract_code_fenced]; exact hp
  have h1 : mainLoop parse oracle (0 + 1) S "" ⟨S, [], 0, []⟩ =
      mainLoop parse oracle 0 (extract_code ("```" ++ S ++ "```")) ""
        (write_file (extract_code ("```" ++ S ++ "```"))
          ⟨S, [], 1, [create_prompt S ""]⟩) :=
    mainLoop_succ_valid parse oracle 0 S "" ⟨S, [], 0, []⟩ ("```" ++ S ++ "```")
      ho hcand
  have h2 : mainLoop parse oracle (1 : Int).toNat S "" ⟨S, [], 0, []⟩ =
      mainLoop parse oracle 0 (extract_code ("```" ++ S ++ "```")) ""
        (write_file (extract_code ("```" ++ S ++ "```"))
          ⟨S, [], 1, [create_prompt S ""]⟩) := h1
  rw [h2, extract_code_fenced]
  rfl

/-- Witness for C5: the round-trip at the concrete source `x = 1`. -/
theorem claim5_witness :
    extract_code ("```" ++ "x = 1" ++ "```") = "x = 1" ∧
    main parseStub oracleFenced "x = 1" 1 =
      .ok ("x = 1", "", ⟨"x = 1", ["x = 1"], 1, [create_prompt "x = 1" ""]⟩) :=
  claim5_round_trip parseStub oracleFenced "x = 1" (by decide) rfl

/-- C6: a length-truncated completion raises the uncaught fatal
`RuntimeError("Too large")` — it is neither retried nor treated as a
candidate-syntax error — and the on-disk file stays exactly at its pre-call
state (same disk content, no new write). -/
theorem claim6_truncated_fatal :
    ∀ (parse : String → Option String) (oracle : Nat → Completion)
      (n : Nat) (s e : String) (st : St),
      oracle st.calls = .truncated →
      mainLoop parse oracle (n + 1) s e st =
        .error (.tooLarge "Too large",
          { st with calls := st.calls + 1,
                    prompts := st.prompts ++ [create_prompt s e] }) ∧
      (resultSt (mainLoop parse oracle (n + 1) s e st)).disk = st.disk ∧
      (resultSt (mainLoop parse oracle (n + 1) s e st)).writes = st.writes := by
  intro parse oracle n s e st ho
  have hm := mainLoop_succ_trunc parse oracle n s e st ho
  refine ⟨hm, ?_, ?_⟩ <;> rw [hm] <;> rfl

/-- Witness for C6: a truncated first call aborts a three-round run with the
disk still holding the initial content and no writes. -/
theorem claim6_witness :
    mainLoop parseStub oracleTrunc (2 + 1) "start" "" ⟨"start", [], 0, []⟩ =
      .error (.tooLarge "Too large",
        ⟨"start", [], 1, [create_prompt "start" ""]⟩) ∧
    (resultSt (mainLoop parseStub oracleTrunc (2 + 1) "start" ""
      ⟨"start", [], 0, []⟩)).disk = "start" ∧
    (resultSt (mainLoop parseStub oracleTrunc (2 + 1) "start" ""
      ⟨"start", [], 0, []⟩)).writes = [] :=
  claim6_truncated_fatal parseStub oracleTrunc 2 "start" "" ⟨"start", [], 0, []⟩ rfl

/-- C7: the prompt contains the error-hint block, with the captured error
text verbatim, exactly when the error passed in is non-empty; consequently,
after a round-1 invalid candidate with message `E1`, round 2's prompt is
built with `E1` (which occurs literally in it), and after round 2 succeeds,
round 3's prompt is built with the empty error, i.e. it is the bare template
with no hint block. -/
theorem claim7_error_feedback :
    (∀ s e : String, e ≠ "" →
      create_prompt s e = promptTemplate s ++ errorHintBlock e ∧
      List.IsInfix e.data (create_prompt s e).data) ∧
    (∀ s : String, create_prompt s "" = promptTemplate s) ∧
    (∀ (parse : String → Option String) (oracle : Nat → Completion)
        (src c1 c2 c3 : String),
      parse src = none →
      oracle 0 = .ok c1 → parse (extract_code c1) = some "E1" →
      oracle 1 = .ok c2 → parse (extract_code c2) = none →
      oracle 2 = .ok c3 →
      (resultSt (main parse oracle src 3)).prompts =
        [create_prompt src "", create_prompt src "E1",
         create_prompt (extract_code c2) ""] ∧
      List.IsInfix ("E1" : String).data (create_prompt src "E1").data) := by
  refine ⟨?_, ?_, ?_⟩
  · intro s e he
    exact ⟨create_prompt_of_ne s e he, errorHint_infix s e he⟩
  · exact create_prompt_of_empty
  · intro parse oracle src c1 c2 c3 hp0 ho1 hp1 ho2 hp2 ho3
    refine ⟨?_, errorHint_infix src "E1" (by decide)⟩
    rw [main_valid_start parse oracle src 3 hp0]
    have e1 : mainLoop parse oracle (3 : Int).toNat src "" ⟨src, [], 0, []⟩ =
        mainLoop parse oracle 2 src "E1" ⟨src, [], 1, [create_prompt src ""]⟩ :=
      mainLoop_succ_invalid parse oracle 2 src "" ⟨src, [], 0, []⟩ c1 "E1" ho1 hp1
    have e2 : mainLoop parse oracle 2 src "E1" ⟨src, [], 1, [create_prompt src ""]⟩ =
        mainLoop parse oracle 1 (extract_code c2) ""
          ⟨extract_code c2, [extract_code c2], 2,
            [create_prompt src "", create_prompt src "E1"]⟩ :=
      mainLoop_succ_valid parse oracle 1 src "E1"
        ⟨src, [], 1, [create_prompt src ""]⟩ c2 ho2 hp2
    rw [e1, e2]
    cases hp3 : parse (extract_code c3) with
    | none =>
      have e3 : mainLoop parse oracle 1 (extract_code c2) ""
          ⟨extract_code c2, [extract_code c2], 2,
            [create_prompt src "", create_prompt src "E1"]⟩ =
          .ok (extract_code c3, "",
            ⟨extract_code c3, [extract_code c2, extract_code c3], 3,
              [create_prompt src "", create_prompt src "E1",
               create_prompt (extract_code c2) ""]⟩) :=
        mainLoop_succ_valid parse oracle 0 (extract_code c2) ""
          ⟨extract_code c2, [extract_code c2], 2,
            [create_prompt src "", create_prompt src "E1"]⟩ c3 ho3 hp3
      rw [e3]
      rfl
    | some m =>
      have e3 : mainLoop parse oracle 1 (extract_code c2) ""
          ⟨extract_code c2, [extract_code c2], 2,
            [create_prompt src "", create_prompt src "E1"]⟩ =
          .ok (extract_code c2, m,
            ⟨extract_code c2, [extract_code c2], 3,
              [create_prompt src "", create_prompt src "E1",
               create_prompt (extract_code c2) ""]⟩) :=
        mainLoop_succ_invalid parse oracle 0 (extract_code c2) ""
          ⟨extract_code c2, [extract_code c2], 2,
            [create_prompt src "", create_prompt src "E1"]⟩ c3 m ho3 hp3
      rw [e3]
      rfl

/-- Witness for C7: the invalid-then-valid scenario at concrete stubs; the
three prompts carry the empty hint, the `E1` hint, and the empty hint. -/
theorem claim7_witness :
    (resultSt (main parseStub oracleStub "start" 3)).prompts =
      [create_prompt "start" "", create_prompt "start" "E1",
       create_prompt (extract_code "good") ""] :=
  (claim7_error_feedback.2.2 parseStub oracleStub "start" "bad1" "good" "good"
    (by decide) rfl (by decide) rfl (by decide) rfl).1

/-- C8: the captured error is cleared unconditionally after every completion
attempt — a successful round passes the empty error onward and a failing
round passes exactly its own new message, in both cases independently of the
incoming error; so after failing rounds with `E1` then `E2`, the round-3
prompt is built from `E2` alone and the round-`k` error `E1` is gone. -/
theorem claim8_error_cleared_each_attempt :
    (∀ (parse : String → Option String) (oracle : Nat → Completion)
        (n : Nat) (s e : String) (st : St) (c : String),
        oracle st.calls = .ok c → parse (extract_code c) = none →
        mainLoop parse oracle (n + 1) s e st =
          mainLoop parse oracle n (extract_code c) ""
            (write_file (extract_code c)
              { st with calls := st.calls + 1,
                        prompts := st.prompts ++ [create_prompt s e] })) ∧
    (∀ (parse : String → Option String) (oracle : Nat → Completion)
        (n : Nat) (s e : String) (st : St) (c msg : String),
        oracle st.calls = .ok c → parse (extract_code c) = some msg →
        mainLoop parse oracle (n + 1) s e st =
          mainLoop parse oracle n s msg
            { st with calls := st.calls + 1,
                      prompts := st.prompts ++ [create_prompt s e] }) ∧
    (∀ (parse : String → Option String) (oracle : Nat → Completion)
        (src c1 c2 c3 : String),
      parse src = none →
      oracle 0 = .ok c1 → parse (extract_code c1) = some "E1" →
      oracle 1 = .ok c2 → parse (extract_code c2) = some "E2" →
      oracle 2 = .ok c3 →
      (resultSt (main parse oracle src 3)).prompts =
        [create_prompt src "", create_prompt src "E1",
         create_prompt src "E2"]) := by
  refine ⟨mainLoop_succ_valid, mainLoop_succ_invalid, ?_⟩
  intro parse oracle src c1 c2 c3 hp0 ho1 hp1 ho2 hp2 ho3
  rw [main_valid_start parse oracle src 3 hp0]
  have e1 : mainLoop parse oracle (3 : Int).toNat src "" ⟨src, [], 0, []⟩ =
      mainLoop parse oracle 2 src "E1" ⟨src, [], 1, [create_prompt src ""]⟩ :=
    mainLoop_succ_invalid parse oracle 2 src "" ⟨src, [], 0, []⟩ c1 "E1" ho1 hp1
  have e2 : mainLoop parse oracle 2 src "E1" ⟨src, [], 1, [create_prompt src ""]⟩ =
      mainLoop parse oracle 1 src "E2"
        ⟨src, [], 2, [create_prompt src "", create_prompt src "E1"]⟩ :=
    mainLoop_succ_invalid parse oracle 1 src "E1"
      ⟨src, [], 1, [create_prompt src ""]⟩ c2 "E2" ho2 hp2
  rw [e1, e2]
  cases hp3 : parse (extract_code c3) with
  | none =>
    have e3 : mainLoop parse oracle 1 src "E2"
        ⟨src, [], 2, [create_prompt src "", create_prompt src "E1"]⟩ =
        .ok (extract_code c3, "",
          ⟨extract_code c3, [extract_code c3], 3,
            [create_prompt src "", create_prompt src "E1",
             create_prompt src "E2"]⟩) :=
      mainLoop_succ_valid parse oracle 0 src "E2"
        ⟨src, [], 2, [create_prompt src "", create_prompt src "E1"]⟩ c3 ho3 hp3
    rw [e3]
    rfl
  | some m =>
    have e3 : mainLoop parse oracle 1 src "E2"
        ⟨src, [], 2, [create_prompt src "", create_prompt src "E1"]⟩ =
        .ok (src, m,
          ⟨src, [], 3,
            [create_prompt src "", create_prompt src "E1",
             create_prompt src "E2"]⟩) :=
      mainLoop_succ_invalid parse oracle 0 src "E2"
        ⟨src, [], 2, [create_prompt src "", create_prompt src "E1"]⟩ c3 m ho3 hp3
    rw [e3]
    rfl

/-- Witness for C8: two consecutive failing rounds at concrete stubs; the
round-3 prompt carries only `E2`. -/
theorem claim8_witness :
    (resultSt (main parseStub oracleTwoBad "start" 3)).prompts =
      [create_prompt "start" "", create_prompt "start" "E1",
       create_prompt "start" "E2"] :=
  claim8_error_cleared_each_attempt.2.2 parseStub oracleTwoBad "start"
    "bad1" "bad2" "good" (by decide) rfl (by decide) rfl (by decide) rfl

/-- C9: with zero requested iterations and a valid input source, the run
completes normally, the file on disk is unchanged, no write is performed and
no completion-service call occurs. -/
theorem claim9_zero_iterations :
    ∀ (parse : String → Option String) (oracle : Nat → Completion)
      (content : String),
      parse content = none →
      main parse oracle content 0 = .ok (content, "", ⟨content, [], 0, []⟩) ∧
      (resultSt (main parse oracle content 0)).disk = content ∧
      (resultSt (main parse oracle content 0)).writes = [] ∧
      (resultSt (main parse oracle content 0)).calls = 0 := by
  intro parse oracle content h
  have hm : main parse oracle content 0 = .ok (content, "", ⟨content, [], 0, []⟩) := by
    rw [main_valid_start parse oracle content 0 h]
    rfl
  refine ⟨hm, ?_, ?_, ?_⟩ <;> rw [hm] <;> rfl

/-- Witness for C9: the zero-iteration run at concrete stubs. -/
theorem claim9_witness :
    main parseStub oracleOk "start" 0 =
      .ok ("start", "", ⟨"start", [], 0, []⟩) ∧
    (resultSt (main parseStub oracleOk "start" 0)).disk = "start" ∧
    (resultSt (main parseStub oracleOk "start" 0)).writes = [] ∧
    (resultSt (main parseStub oracleOk "start" 0)).calls = 0 :=
  claim9_zero_iterations parseStub oracleOk "start" (by decide)

/-- C10: for every negative iteration count, `main` behaves exactly as with
zero iterations (in Python, `range` of a negative number is empty): the
initial file is still read and validated, so an unparseable file still
aborts, while a parseable one completes normally with no completion call and
no write, reaching the final completion message. -/
theorem claim10_negative_iterations :
    ∀ (parse : String → Option String) (oracle : Nat → Completion)
      (content : String) (its : Int),
      its < 0 →
      main parse oracle content its = main parse oracle content 0 ∧
      (∀ msg, parse content = some msg →
        main parse oracle content its =
          .error (.initialSyntax msg, ⟨content, [], 0, []⟩)) ∧
      (parse content = none →
        main parse oracle content its =
          .ok (content, "", ⟨content, [], 0, []⟩)) := by
  intro parse oracle content its hneg
  have ht : its.toNat = 0 := Int.toNat_of_nonpos (le_of_lt hneg)
  refine ⟨?_, ?_, ?_⟩
  · cases hpc : parse content with
    | some msg =>
      rw [main_initialSyntax parse oracle content its msg hpc,
          main_initialSyntax parse oracle content 0 msg hpc]
    | none =>
      rw [main_valid_start parse oracle content its hpc,
          main_valid_start parse oracle content 0 hpc, ht]
      rfl
  · intro msg hpc
    exact main_initialSyntax parse oracle content its msg hpc
  · intro hpc
    rw [main_valid_start parse oracle content its hpc, ht]
    rfl

/-- Witness for C10: a run with `-2` iterations equals the zero-iteration
run at concrete stubs. -/
theorem claim10_witness :
    main parseStub oracleOk "start" (-2) = main parseStub oracleOk "start" 0 :=
  (claim10_negative_iterations parseStub oracleOk "start" (-2) (by decide)).1

end PyGPTify
